import Mathlib

/-!
Formal model of the message-translation layer of a Service Bus client
library (package servicebus): the domain Message entity, the AMQP wire
message it maps to, the tag-driven structure projector, the lock-token
codec, disposition actions, and the inbound/outbound translators.

Modelling conventions:
- Go byte slices are `List Nat`; Go maps are association lists in
  insertion order; Go `interfaceascii` values that can appear on the wire
  are the inductive `AMQPValue`, and a Go interface value that may be nil
  is `Option AMQPValue` (with `none` for nil).
- Fallible Go functions returning `(T, error)` become `Except String T`
  when they cannot crash, and `GoResult T` when a runtime panic (nil
  pointer dereference, index out of range, failed type assertion) is
  reachable: `GoResult.panic` marks a crash, `GoResult.err` a returned
  error value, `GoResult.ok` success.
- `uint32` arithmetic is `Nat` with an explicit `% 4294967296`.
- Error strings keep the constant text of the Go format strings; the
  formatted interpolations (such as the tag bytes printed by the
  invalid-delivery-tag error) are elided.
- Go string splitting and trimming are re-implemented executably over
  the character list of a `String` (`goSplit`, `goTrim`), since the Go
  separator is the single comma character and TrimSpace is modelled on
  ASCII whitespace.
-/

namespace ServiceBus

/-- Result of running a Go computation that may return a value, return an
error, or crash with a runtime panic. -/
inductive GoResult (α : Type) where
  | ok (value : α)
  | err (msg : String)
  | panic (msg : String)
deriving DecidableEq, Repr

/-- True exactly when the computation returned an error value (not a
panic, not a success). -/
def GoResult.isErr {α : Type} : GoResult α → Bool
  | .err _ => true
  | _ => false

/-- Splitting helper: splits a character list at every occurrence of the
separator, keeping empty pieces, as Go strings.Split does. -/
def goSplitAux (sep : Char) : List Char → List Char → List (List Char)
  | [], acc => [acc.reverse]
  | c :: rest, acc =>
    if c = sep then acc.reverse :: goSplitAux sep rest []
    else goSplitAux sep rest (c :: acc)

/-- Model of Go strings.Split for a single-character separator: always
returns at least one piece; splitting the empty string gives one empty
piece. -/
def goSplit (s : String) (sep : Char) : List String :=
  (goSplitAux sep s.data []).map String.mk

/-- ASCII whitespace recognised by the trimming model. -/
def isGoSpace (c : Char) : Bool :=
  c = ' ' || c = '\t' || c = '\n' || c = '\r'

/-- Model of Go strings.TrimSpace restricted to ASCII whitespace. -/
def goTrim (s : String) : String :=
  String.mk (((s.data.dropWhile (isGoSpace ·)).reverse.dropWhile (isGoSpace ·)).reverse)

/-- A wire-representable dynamically typed value: the payloads that this
layer stores into AMQP properties, application properties, annotations
and delivery annotations. -/
inductive AMQPValue where
  | str (s : String)
  | time (t : Nat)
  | i64 (n : Int)
  | i16 (n : Int)
  | uuid (u : List Nat)
deriving DecidableEq, Repr

/-- AMQP wire message properties block (the subset this layer touches).
MessageID and CorrelationID are dynamically typed on the wire. -/
structure MessageProperties where
  MessageID : Option AMQPValue
  GroupID : String
  GroupSequence : Nat
  CorrelationID : Option AMQPValue
  ContentType : String
  Subject : String
  To : String
  ReplyTo : String
  ReplyToGroupID : String
deriving DecidableEq, Repr

/-- AMQP wire message header block (the subset this layer touches).
DeliveryCount is a uint32; TTL is a duration. -/
structure MessageHeader where
  DeliveryCount : Nat
  TTL : Nat
deriving DecidableEq, Repr

/-- AMQP wire message as consumed by this layer. Nil-able Go pointers
and nil-able maps and slices are Options. Data is the list of data
sections, each a byte list. -/
structure AMQPMessage where
  Data : List (List Nat)
  Properties : Option MessageProperties
  Header : Option MessageHeader
  ApplicationProperties : Option (List (String × Option AMQPValue))
  Annotations : Option (List (String × Option AMQPValue))
  DeliveryAnnotations : Option (List (String × Option AMQPValue))
  DeliveryTag : Option (List Nat)
deriving DecidableEq, Repr

/-- Model of amqp.NewMessage: a fresh wire message holding one data
section and nothing else. -/
def amqpNewMessage (data : List Nat) : AMQPMessage :=
  { Data := [data], Properties := none, Header := none,
    ApplicationProperties := none, Annotations := none,
    DeliveryAnnotations := none, DeliveryTag := none }

/-- A 16-byte identifier (uuid.UUID), as a byte list. -/
abbrev UUID := List Nat

/-- Broker-assigned system properties of a received message; every field
is an optional pointer in the source, carrying a mapstructure annotation
naming its wire key. -/
structure SystemProperties where
  LockedUntil : Option Nat
  SequenceNumber : Option Int
  PartitionID : Option Int
  PartitionKey : Option String
  EnqueuedTime : Option Nat
  DeadLetterSource : Option String
  ScheduledEnqueueTime : Option Nat
  EnqueuedSequenceNumber : Option Int
  ViaPartitionKey : Option String
deriving DecidableEq, Repr

/-- The application-facing Message entity. The `message` field is the
back-reference to the originating wire message (nil for messages built
by the application). -/
structure Message where
  ContentType : String
  CorrelationID : String
  Data : List Nat
  DeliveryCount : Nat
  GroupID : Option String
  GroupSequence : Option Nat
  ID : String
  Label : String
  ReplyTo : String
  ReplyToGroupID : String
  To : String
  TTL : Option Nat
  LockToken : Option UUID
  SystemProperties : Option SystemProperties
  UserProperties : Option (List (String × Option AMQPValue))
  message : Option AMQPMessage
deriving DecidableEq, Repr

/-- The zero Message value. -/
def emptyMessage : Message :=
  { ContentType := "", CorrelationID := "", Data := [], DeliveryCount := 0,
    GroupID := none, GroupSequence := none, ID := "", Label := "",
    ReplyTo := "", ReplyToGroupID := "", To := "", TTL := none,
    LockToken := none, SystemProperties := none, UserProperties := none,
    message := none }

/-- NewMessage: build a Message from a byte slice. -/
def NewMessage (data : List Nat) : Message :=
  { emptyMessage with Data := data }

/-- NewMessageFromString: build a Message from a string. -/
def NewMessageFromString (message : String) : Message :=
  NewMessage (message.data.map (fun c => c.toNat % 256))

/-- The delivery-annotation key under which an outbound lock token is
installed. -/
def lockTokenName : String := "x-opt-lock-token"

/-- The in-place byte-pair swap used by the lock-token codec: saves the
byte at indexOne, writes the byte at indexTwo over it, then writes the
saved byte at indexTwo. -/
def swapIndex (indexOne indexTwo : Nat) (array : List Nat) : List Nat :=
  let v1 := array.getD indexOne 0
  let array2 := array.set indexOne (array.getD indexTwo 0)
  array2.set indexTwo v1

/-- The full 4-pair swap the codec applies to the copied tag bytes, in
source order: (0,3), then (1,2), then (4,5), then (6,7). -/
def lockTokenSwap (lockTokenBytes : List Nat) : List Nat :=
  swapIndex 6 7 (swapIndex 4 5 (swapIndex 1 2 (swapIndex 0 3 lockTokenBytes)))

/-- lockTokenFromMessageTag: rejects any delivery tag whose length is
not exactly 16, otherwise copies the 16 tag bytes and applies the 4-pair
swap, yielding the lock-token identifier. A nil tag has length 0. -/
def lockTokenFromMessageTag (msg : AMQPMessage) : Except String UUID :=
  let tag := msg.DeliveryTag.getD []
  if tag.length ≠ 16 then
    .error "the message contained an invalid delivery tag"
  else
    Except.ok (lockTokenSwap (tag.take 16))

/-- Any list of length 16 is literally a 16-element list. -/
theorem list_eq_of_len_sixteen {α : Type} (l : List α) (h : l.length = 16) :
    ∃ b0 b1 b2 b3 b4 b5 b6 b7 b8 b9 b10 b11 b12 b13 b14 b15,
      l = [b0,b1,b2,b3,b4,b5,b6,b7,b8,b9,b10,b11,b12,b13,b14,b15] :=
  match l, h with
  | [b0,b1,b2,b3,b4,b5,b6,b7,b8,b9,b10,b11,b12,b13,b14,b15], _ =>
    ⟨b0,b1,b2,b3,b4,b5,b6,b7,b8,b9,b10,b11,b12,b13,b14,b15, rfl⟩

/-- Claim C1: on a delivery tag of exactly 16 bytes the codec returns
the identifier obtained by swapping the byte pairs at positions (0,3),
(1,2), (4,5), (6,7) and keeping bytes 8 to 15; on any other tag length
it fails with the invalid-delivery-tag error and returns no identifier. -/
theorem lockTokenFromMessageTag_spec (msg : AMQPMessage) (t : List Nat)
    (h : msg.DeliveryTag = some t) :
    (t.length = 16 →
      lockTokenFromMessageTag msg =
        .ok ([t.getD 3 0, t.getD 2 0, t.getD 1 0, t.getD 0 0,
              t.getD 5 0, t.getD 4 0, t.getD 7 0, t.getD 6 0] ++ t.drop 8)) ∧
    (t.length ≠ 16 →
      lockTokenFromMessageTag msg =
        .error "the message contained an invalid delivery tag") := by
  constructor
  · intro hlen
    obtain ⟨b0,b1,b2,b3,b4,b5,b6,b7,b8,b9,b10,b11,b12,b13,b14,b15, rfl⟩ :=
      list_eq_of_len_sixteen t hlen
    simp [lockTokenFromMessageTag, h]
    rfl
  · intro hlen
    simp [lockTokenFromMessageTag, h, hlen]

/-- Concrete tag of length 16 used to exercise the codec. -/
def sampleDeliveryTag : List Nat :=
  [10, 11, 12, 13, 14, 15, 16, 17, 18, 19, 20, 21, 22, 23, 24, 25]

/-- Wire message carrying the 16-byte sample tag. -/
def sampleTagMessage : AMQPMessage :=
  { amqpNewMessage [] with DeliveryTag := some sampleDeliveryTag }

/-- Wire message carrying a 1-byte delivery tag. -/
def shortTagMessage : AMQPMessage :=
  { amqpNewMessage [] with DeliveryTag := some [42] }

/-- Witness for claim C1: at the sample 16-byte tag the codec swaps the
four pairs, and at a 1-byte tag it fails. -/
theorem lockTokenFromMessageTag_spec_witness :
    lockTokenFromMessageTag sampleTagMessage =
      .ok [13, 12, 11, 10, 15, 14, 17, 16, 18, 19, 20, 21, 22, 23, 24, 25] ∧
    lockTokenFromMessageTag shortTagMessage =
      .error "the message contained an invalid delivery tag" :=
  ⟨(lockTokenFromMessageTag_spec sampleTagMessage sampleDeliveryTag rfl).1 (by decide),
   (lockTokenFromMessageTag_spec shortTagMessage [42] rfl).2 (by decide)⟩

/-- Claim C6: the 4-pair byte swap of the lock-token codec is
self-inverse on every 16-byte buffer. -/
theorem lockTokenSwap_self_inverse (a : List Nat) (h : a.length = 16) :
    lockTokenSwap (lockTokenSwap a) = a := by
  obtain ⟨b0,b1,b2,b3,b4,b5,b6,b7,b8,b9,b10,b11,b12,b13,b14,b15, rfl⟩ :=
    list_eq_of_len_sixteen a h
  rfl

/-- Witness for claim C6: the swap applied twice to the sample tag gives
back the sample tag. -/
theorem lockTokenSwap_self_inverse_witness :
    lockTokenSwap (lockTokenSwap sampleDeliveryTag) = sampleDeliveryTag :=
  lockTokenSwap_self_inverse sampleDeliveryTag (by decide)

/-- Parsed form of a mapstructure field annotation. -/
structure mapStructureTag where
  Name : String
  PersistEmpty : Bool
deriving DecidableEq, Repr

/-- The flag-token loop of parseMapStructureTag: walks the tokens after
the name, setting PersistEmpty on the token persistempty and failing on
the first token it does not understand. -/
def applyTagKeys : List String → mapStructureTag → Except String mapStructureTag
  | [], mapTag => .ok mapTag
  | tagKey :: rest, mapTag =>
    if tagKey = "persistempty" then
      applyTagKeys rest { mapTag with PersistEmpty := true }
    else
      .error ("key \"" ++ tagKey ++ "\" is not understood")

/-- parseMapStructureTag: an absent annotation yields no tag and no
error; otherwise the annotation is split on commas, the first piece
trimmed of whitespace becomes the name, and the remaining pieces are
processed as flag tokens. The annotation is `none` when the source Go
struct tag has no mapstructure key. -/
def parseMapStructureTag (tag : Option String) : Except String (Option mapStructureTag) :=
  match tag with
  | none => .ok none
  | some str =>
    let split := goSplit str ','
    (applyTagKeys split.tail { Name := goTrim (split.headD ""), PersistEmpty := false }).map some

/-- The flag loop maps an all-persistempty token list to success, with
the flag set exactly when at least one token was seen. -/
theorem applyTagKeys_all_persistempty (keys : List String) (mapTag : mapStructureTag)
    (h : ∀ k ∈ keys, k = "persistempty") :
    applyTagKeys keys mapTag =
      .ok { mapTag with PersistEmpty := mapTag.PersistEmpty || !keys.isEmpty } := by
  induction keys generalizing mapTag with
  | nil => simp [applyTagKeys]
  | cons k rest ih =>
    have hk : k = "persistempty" := h k (by simp)
    have hrest : ∀ k ∈ rest, k = "persistempty" := fun k hmem => h k (by simp [hmem])
    simp [applyTagKeys, hk, ih _ hrest]

/-- The flag loop fails at the first token that is not persistempty,
naming that token. -/
theorem applyTagKeys_first_bad (pre : List String) (t : String) (post : List String)
    (mapTag : mapStructureTag)
    (hpre : ∀ k ∈ pre, k = "persistempty") (ht : t ≠ "persistempty") :
    applyTagKeys (pre ++ t :: post) mapTag =
      .error ("key \"" ++ t ++ "\" is not understood") := by
  induction pre generalizing mapTag with
  | nil => simp [applyTagKeys, ht]
  | cons k rest ih =>
    have hk : k = "persistempty" := hpre k (by simp)
    have hrest : ∀ k ∈ rest, k = "persistempty" := fun k hmem => hpre k (by simp [hmem])
    simp [applyTagKeys, hk, ih _ hrest]

/-- Claim C7: a field with no annotation parses to a not-present result
with no error; otherwise the result names the first comma-separated
token trimmed of whitespace, PersistEmpty is true exactly when a
subsequent token equals persistempty, and the first other subsequent
token causes an error identifying that token. -/
theorem parseMapStructureTag_spec (tag : Option String) :
    (tag = none → parseMapStructureTag tag = .ok none) ∧
    (∀ str name rest, tag = some str → goSplit str ',' = name :: rest →
      (∀ k ∈ rest, k = "persistempty") →
      parseMapStructureTag tag =
        .ok (some { Name := goTrim name, PersistEmpty := !rest.isEmpty })) ∧
    (∀ str name pre t post, tag = some str →
      goSplit str ',' = name :: (pre ++ t :: post) →
      (∀ k ∈ pre, k = "persistempty") → t ≠ "persistempty" →
      parseMapStructureTag tag =
        .error ("key \"" ++ t ++ "\" is not understood")) := by
  refine ⟨fun h => by simp [h, parseMapStructureTag], ?_, ?_⟩
  · intro str name rest hstr hsplit hall
    subst hstr
    simp [parseMapStructureTag, hsplit, applyTagKeys_all_persistempty rest _ hall,
      Except.map]
  · intro str name pre t post hstr hsplit hpre ht
    subst hstr
    simp [parseMapStructureTag, hsplit, applyTagKeys_first_bad pre t post _ hpre ht,
      Except.map]

/-- Witness for claim C7: concrete annotations exercising the three
branches of the parser contract. -/
theorem parseMapStructureTag_spec_witness :
    parseMapStructureTag none = .ok none ∧
    parseMapStructureTag (some " x-opt-partition-key ,persistempty") =
      .ok (some { Name := "x-opt-partition-key", PersistEmpty := true }) ∧
    parseMapStructureTag (some "x-opt-partition-key,persistempty,bogus") =
      .error "key \"bogus\" is not understood" :=
  ⟨(parseMapStructureTag_spec none).1 rfl,
   (parseMapStructureTag_spec (some " x-opt-partition-key ,persistempty")).2.1
      " x-opt-partition-key ,persistempty" " x-opt-partition-key " ["persistempty"]
      rfl (by decide) (by decide),
   (parseMapStructureTag_spec (some "x-opt-partition-key,persistempty,bogus")).2.2
      "x-opt-partition-key,persistempty,bogus" "x-opt-partition-key"
      ["persistempty"] "bogus" [] rfl (by decide) (by decide) (by decide)⟩

/-- The reflective view of one structure field: whether the field is a
pointer (and, when so, whether it is nil) or a plain value (paired with
the zero value of its type), together with its raw annotation and
whether reflection can set it (exported fields). -/
inductive FieldValue (V : Type) where
  | ptr (v : Option V)
  | plain (v : V) (zero : V)
deriving DecidableEq, Repr

/-- One reflected structure field. -/
structure EncField (V : Type) where
  tag : Option String
  canSet : Bool
  value : FieldValue V
deriving DecidableEq, Repr

/-- The reflective view of the value handed to the structure projector:
either it dereferences to a structure, seen as its field list, or it
does not. -/
inductive ReflectedValue (V : Type) where
  | struct (fields : List (EncField V))
  | notStruct
deriving DecidableEq, Repr

/-- The field loop of encodeStructureToMap: skips unsettable fields,
parses each annotation (propagating the first parse error), skips
untagged fields, and emits an entry per the omit-zero-unless-flagged
policy. Emitted entry values are `Option V` with `none` for the Go nil
written for a nil pointer field persisted empty. -/
def encodeFields {V : Type} [DecidableEq V] :
    List (EncField V) → Except String (List (String × Option V))
  | [] => .ok []
  | f :: rest =>
    if f.canSet then
      match parseMapStructureTag f.tag with
      | .error e => .error e
      | .ok none => encodeFields rest
      | .ok (some tag) =>
        match f.value with
        | .ptr v =>
          if v.isSome || tag.PersistEmpty then
            match encodeFields rest with
            | .error e => .error e
            | .ok r => .ok ((tag.Name, v) :: r)
          else encodeFields rest
        | .plain v zero =>
          if v ≠ zero || tag.PersistEmpty then
            match encodeFields rest with
            | .error e => .error e
            | .ok r => .ok ((tag.Name, some v) :: r)
          else encodeFields rest
    else encodeFields rest

/-- encodeStructureToMap: fails on a value that does not dereference to
a structure, otherwise walks the fields. -/
def encodeStructureToMap {V : Type} [DecidableEq V] (structPointer : ReflectedValue V) :
    Except String (List (String × Option V)) :=
  match structPointer with
  | .notStruct => .error "must provide a struct"
  | .struct fields => encodeFields fields

/-- The per-field entry rule exactly as the specification words it: an
unsettable or untagged field emits nothing; a tagged nil pointer emits
key to null exactly when PersistEmpty; a tagged set pointer emits key to
the dereferenced value; a tagged plain value emits key to value exactly
when the value differs from the type zero value or PersistEmpty. -/
def projectorSpecEmit {V : Type} [DecidableEq V] (f : EncField V) :
    Option (String × Option V) :=
  if f.canSet then
    match parseMapStructureTag f.tag with
    | .ok (some tag) =>
      match f.value with
      | .ptr none => if tag.PersistEmpty then some (tag.Name, none) else none
      | .ptr (some x) => some (tag.Name, some x)
      | .plain v zero =>
        if v ≠ zero || tag.PersistEmpty then some (tag.Name, some v) else none
    | _ => none
  else none

/-- Claim C2: a non-structure input fails with the not-a-structure
error; a structure whose field annotations all parse maps to exactly the
entries given by the per-field rule: untagged fields emit nothing,
tagged nil pointers emit key to null exactly when PersistEmpty, tagged
set pointers emit the dereferenced value, and tagged plain values emit
exactly when nonzero or PersistEmpty. -/
theorem encodeStructureToMap_spec {V : Type} [DecidableEq V]
    (fields : List (EncField V))
    (hok : ∀ f ∈ fields, (parseMapStructureTag f.tag).isOk = true) :
    encodeStructureToMap (ReflectedValue.notStruct (V := V)) = .error "must provide a struct" ∧
    encodeStructureToMap (.struct fields) = .ok (fields.filterMap projectorSpecEmit) := by
  refine ⟨rfl, ?_⟩
  simp only [encodeStructureToMap]
  induction fields with
  | nil => rfl
  | cons f rest ih =>
    have hrest : ∀ g ∈ rest, (parseMapStructureTag g.tag).isOk = true :=
      fun g hmem => hok g (by simp [hmem])
    have hfv : (parseMapStructureTag f.tag).isOk = true := hok f (by simp)
    obtain ⟨r, hr⟩ : ∃ r, parseMapStructureTag f.tag = .ok r := by
      cases hp : parseMapStructureTag f.tag with
      | ok r => exact ⟨r, rfl⟩
      | error e => rw [hp] at hfv; simp [Except.isOk, Except.toBool] at hfv
    have ihr := ih hrest
    rcases hcs : f.canSet with _ | _
    · simp [encodeFields, List.filterMap, projectorSpecEmit, hcs, ihr]
    · rcases r with _ | tag
      · simp [encodeFields, List.filterMap, projectorSpecEmit, hcs, hr, ihr]
      · cases hv : f.value with
        | ptr v =>
          rcases v with _ | x
          · rcases hpe : tag.PersistEmpty with _ | _ <;>
              simp [encodeFields, List.filterMap, projectorSpecEmit, hcs, hr, hv, hpe, ihr]
          · simp [encodeFields, List.filterMap, projectorSpecEmit, hcs, hr, hv, ihr]
        | plain v zero =>
          rcases hz : decide (v = zero) with _ | _ <;>
            rcases hpe : tag.PersistEmpty with _ | _ <;>
              simp_all [encodeFields, List.filterMap, projectorSpecEmit, hcs, hr, hv, hpe, ihr]

/-- Concrete reflected field list exercising every branch of the
per-field rule, over Nat values. -/
def sampleFields : List (EncField Nat) :=
  [ { tag := none, canSet := true, value := .plain 7 0 },
    { tag := some "k-nil-skip", canSet := true, value := .ptr none },
    { tag := some "k-nil-persist,persistempty", canSet := true, value := .ptr none },
    { tag := some "k-set", canSet := true, value := .ptr (some 5) },
    { tag := some "k-zero", canSet := true, value := .plain 0 0 },
    { tag := some "k-zero-persist,persistempty", canSet := true, value := .plain 0 0 },
    { tag := some "k-plain", canSet := true, value := .plain 3 0 } ]

/-- Witness for claim C2: the projector on the sample fields emits
exactly the entries the per-field rule dictates. -/
theorem encodeStructureToMap_spec_witness :
    encodeStructureToMap (ReflectedValue.notStruct (V := Nat)) = .error "must provide a struct" ∧
    encodeStructureToMap (.struct sampleFields) =
      .ok [("k-nil-persist", none), ("k-set", some 5),
           ("k-zero-persist", some 0), ("k-plain", some 3)] :=
  encodeStructureToMap_spec sampleFields (by decide)

/-- The reflective view of the SystemProperties structure: nine exported
pointer fields, each carrying its mapstructure wire-key annotation. This
is what reflection presents to encodeStructureToMap when toMsg projects
system properties. -/
def systemPropertiesFields (sp : SystemProperties) : List (EncField AMQPValue) :=
  [ { tag := some "x-opt-locked-until", canSet := true,
      value := .ptr (sp.LockedUntil.map .time) },
    { tag := some "x-opt-sequence-number", canSet := true,
      value := .ptr (sp.SequenceNumber.map .i64) },
    { tag := some "x-opt-partition-id", canSet := true,
      value := .ptr (sp.PartitionID.map .i16) },
    { tag := some "x-opt-partition-key", canSet := true,
      value := .ptr (sp.PartitionKey.map .str) },
    { tag := some "x-opt-enqueued-time", canSet := true,
      value := .ptr (sp.EnqueuedTime.map .time) },
    { tag := some "x-opt-deadletter-source", canSet := true,
      value := .ptr (sp.DeadLetterSource.map .str) },
    { tag := some "x-opt-scheduled-enqueue-time", canSet := true,
      value := .ptr (sp.ScheduledEnqueueTime.map .time) },
    { tag := some "x-opt-enqueue-sequence-number", canSet := true,
      value := .ptr (sp.EnqueuedSequenceNumber.map .i64) },
    { tag := some "x-opt-via-partition-key", canSet := true,
      value := .ptr (sp.ViaPartitionKey.map .str) } ]

/-- The singleton entry list contributed by one optional system
property. -/
def optAnnEntry (k : String) (v : Option AMQPValue) : List (String × Option AMQPValue) :=
  match v with
  | some x => [(k, some x)]
  | none => []

/-- Closed form of the annotation map the projector produces from a
SystemProperties value: one entry per set field, none of the tags carry
persistempty. -/
def spEncoded (sp : SystemProperties) : List (String × Option AMQPValue) :=
  optAnnEntry "x-opt-locked-until" (sp.LockedUntil.map .time) ++
  (optAnnEntry "x-opt-sequence-number" (sp.SequenceNumber.map .i64) ++
  (optAnnEntry "x-opt-partition-id" (sp.PartitionID.map .i16) ++
  (optAnnEntry "x-opt-partition-key" (sp.PartitionKey.map .str) ++
  (optAnnEntry "x-opt-enqueued-time" (sp.EnqueuedTime.map .time) ++
  (optAnnEntry "x-opt-deadletter-source" (sp.DeadLetterSource.map .str) ++
  (optAnnEntry "x-opt-scheduled-enqueue-time" (sp.ScheduledEnqueueTime.map .time) ++
  (optAnnEntry "x-opt-enqueue-sequence-number" (sp.EnqueuedSequenceNumber.map .i64) ++
  (optAnnEntry "x-opt-via-partition-key" (sp.ViaPartitionKey.map .str) ++ []))))))))

set_option maxHeartbeats 4000000 in
/-- The projector on the reflected SystemProperties always succeeds and
produces exactly the closed-form annotation map. -/
theorem encodeStructureToMap_systemProperties (sp : SystemProperties) :
    encodeStructureToMap (.struct (systemPropertiesFields sp)) = .ok (spEncoded sp) := by
  rcases sp with ⟨_|lu, _|sn, _|pid, _|pk, _|et, _|dls, _|sched, _|esn, _|vpk⟩ <;> rfl

/-- Association-list lookup over an annotations map. -/
def lookupAnn : List (String × Option AMQPValue) → String → Option (Option AMQPValue)
  | [], _ => none
  | (k1, v) :: rest, k => if k1 = k then some v else lookupAnn rest k

/-- Modelled from the external mapstructure library: decoding one
time-valued annotation key into an optional time field. An absent key or
a nil value leaves the field nil; a value of the wrong dynamic type is a
decode error. -/
def decodeTimeField (ann : List (String × Option AMQPValue)) (k : String) :
    Except String (Option Nat) :=
  match lookupAnn ann k with
  | none => .ok none
  | some none => .ok none
  | some (some (.time t)) => .ok (some t)
  | some (some _) => .error ("unexpected value type for " ++ k)

/-- Modelled from the external mapstructure library: decoding one
int64-valued annotation key. -/
def decodeI64Field (ann : List (String × Option AMQPValue)) (k : String) :
    Except String (Option Int) :=
  match lookupAnn ann k with
  | none => .ok none
  | some none => .ok none
  | some (some (.i64 n)) => .ok (some n)
  | some (some _) => .error ("unexpected value type for " ++ k)

/-- Modelled from the external mapstructure library: decoding one
int16-valued annotation key. -/
def decodeI16Field (ann : List (String × Option AMQPValue)) (k : String) :
    Except String (Option Int) :=
  match lookupAnn ann k with
  | none => .ok none
  | some none => .ok none
  | some (some (.i16 n)) => .ok (some n)
  | some (some _) => .error ("unexpected value type for " ++ k)

/-- Modelled from the external mapstructure library: decoding one
string-valued annotation key. -/
def decodeStrField (ann : List (String × Option AMQPValue)) (k : String) :
    Except String (Option String) :=
  match lookupAnn ann k with
  | none => .ok none
  | some none => .ok none
  | some (some (.str s)) => .ok (some s)
  | some (some _) => .error ("unexpected value type for " ++ k)

/-- Modelled from the external mapstructure library: mapstructure.Decode
of a wire annotations map into a fresh SystemProperties, matching each
tagged field against its wire key; unmatched keys are ignored and a
type-mismatched value aborts with an error. -/
def decodeSystemProperties (ann : List (String × Option AMQPValue)) :
    Except String SystemProperties := do
  let lockedUntil ← decodeTimeField ann "x-opt-locked-until"
  let seqNum ← decodeI64Field ann "x-opt-sequence-number"
  let partitionID ← decodeI16Field ann "x-opt-partition-id"
  let partitionKey ← decodeStrField ann "x-opt-partition-key"
  let enqueuedTime ← decodeTimeField ann "x-opt-enqueued-time"
  let dlSource ← decodeStrField ann "x-opt-deadletter-source"
  let schedTime ← decodeTimeField ann "x-opt-scheduled-enqueue-time"
  let enqSeqNum ← decodeI64Field ann "x-opt-enqueue-sequence-number"
  let viaKey ← decodeStrField ann "x-opt-via-partition-key"
  return ⟨lockedUntil, seqNum, partitionID, partitionKey, enqueuedTime,
          dlSource, schedTime, enqSeqNum, viaKey⟩

set_option maxHeartbeats 4000000 in
/-- Decoding the annotation map the projector produced restores exactly
the original SystemProperties. -/
theorem decodeSystemProperties_spEncoded (sp : SystemProperties) :
    decodeSystemProperties (spEncoded sp) = .ok sp := by
  rcases sp with ⟨_|lu, _|sn, _|pid, _|pk, _|et, _|dls, _|sched, _|esn, _|vpk⟩ <;> rfl

/-- annotationsFromMap: copies the projector output map pairwise into a
wire annotations map; on association lists the copy is the identity. -/
def annotationsFromMap (m : List (String × Option AMQPValue)) :
    List (String × Option AMQPValue) := m

/-- Go map-assignment on an association list: overwrite the existing
entry for the key or append a fresh one. -/
def mapInsert (l : List (String × Option AMQPValue)) (k : String) (v : Option AMQPValue) :
    List (String × Option AMQPValue) :=
  match l with
  | [] => [(k, v)]
  | (k1, v1) :: rest => if k1 = k then (k, v) :: rest else (k1, v1) :: mapInsert rest k v

/-- The lock-token and TTL installation steps at the end of toMsg: a set
lock token goes into the delivery annotations under the fixed key, and a
set TTL goes into the header block, allocating it if absent. -/
def toMsgTail (amqpMsg : AMQPMessage) (m : Message) : AMQPMessage :=
  let amqpMsg := match m.LockToken with
    | some tok =>
      let da := match amqpMsg.DeliveryAnnotations with
        | none => []
        | some da => da
      { amqpMsg with DeliveryAnnotations := some (mapInsert da lockTokenName (some (.uuid tok))) }
    | none => amqpMsg
  match m.TTL with
  | some ttl =>
    let hdr : MessageHeader := match amqpMsg.Header with
      | none => { DeliveryCount := 0, TTL := 0 }
      | some h => h
    { amqpMsg with Header := some { hdr with TTL := ttl } }
  | none => amqpMsg

/-- toMsg, the outbound translator: reuse the wrapped wire message or
allocate a fresh one around the payload, install a fresh properties
block (message id always; group id and group sequence only when set;
correlation id, content type, label, to, reply-to and reply-to-group-id
unconditionally), copy a non-empty user-properties map verbatim into
application properties, project a set SystemProperties into annotations
(propagating projector failure), then install lock token and TTL. -/
def Message.toMsg (m : Message) : Except String AMQPMessage :=
  let amqpMsg := match m.message with
    | some w => w
    | none => amqpNewMessage m.Data
  let props : MessageProperties :=
    { MessageID := some (.str m.ID), GroupID := "", GroupSequence := 0,
      CorrelationID := none, ContentType := "", Subject := "", To := "",
      ReplyTo := "", ReplyToGroupID := "" }
  let props := match m.GroupID with
    | some g => { props with GroupID := g }
    | none => props
  let props := match m.GroupSequence with
    | some gs => { props with GroupSequence := gs }
    | none => props
  let props := { props with
    CorrelationID := some (.str m.CorrelationID),
    ContentType := m.ContentType,
    Subject := m.Label,
    To := m.To,
    ReplyTo := m.ReplyTo,
    ReplyToGroupID := m.ReplyToGroupID }
  let amqpMsg := { amqpMsg with Properties := some props }
  let amqpMsg := match m.UserProperties with
    | some up =>
      if 0 < up.length then { amqpMsg with ApplicationProperties := some up }
      else amqpMsg
    | none => amqpMsg
  match m.SystemProperties with
  | some sp =>
    match encodeStructureToMap (.struct (systemPropertiesFields sp)) with
    | .error e => .error e
    | .ok sysPropMap =>
      .ok (toMsgTail { amqpMsg with Annotations := some (annotationsFromMap sysPropMap) } m)
  | none => .ok (toMsgTail amqpMsg m)

/-- The delivery-tag step at the end of newMessage: a present, non-empty
delivery tag must yield a lock token; codec failure aborts inbound
translation with the returned error. -/
def newMessageTag (msg : Message) (w : AMQPMessage) : GoResult Message :=
  match w.DeliveryTag with
  | none => .ok msg
  | some dt =>
    if 0 < dt.length then
      match lockTokenFromMessageTag w with
      | .error e => .err e
      | .ok lockToken => .ok { msg with LockToken := some lockToken }
    else .ok msg

/-- The application-properties and annotations steps of newMessage: a
present application-properties map is copied into user properties, and a
present annotations map is decoded into a fresh SystemProperties
(aborting with the decode error on failure). -/
def newMessageRest (msg : Message) (w : AMQPMessage) : GoResult Message :=
  let msg2 := match w.ApplicationProperties with
    | some ap => { msg with UserProperties := some ap }
    | none => msg
  match w.Annotations with
  | none => newMessageTag msg2 w
  | some ann =>
    match decodeSystemProperties ann with
    | .error e => .err e
    | .ok sp => newMessageTag { msg2 with SystemProperties := some sp } w

/-- newMessage, the inbound translator: wraps the payload and the wire
message; when a properties block is present it copies the content fields
(string-typed message id and correlation id only), captures group id and
group sequence by reference, and reads delivery count and TTL from the
header block without checking that the header exists, so a wire message
with properties but no header crashes with a nil dereference. Delivery
count is one-based: wire count plus one in uint32 arithmetic. -/
def newMessage (data : List Nat) (amqpMsg : Option AMQPMessage) : GoResult Message :=
  let msg := { emptyMessage with Data := data, message := amqpMsg }
  match amqpMsg with
  | none => .ok msg
  | some w =>
    match w.Properties with
    | none => newMessageRest msg w
    | some props =>
      match w.Header with
      | none => .panic "runtime error: invalid memory address or nil pointer dereference"
      | some hdr =>
        newMessageRest
          { msg with
            ID := (match props.MessageID with | some (.str s) => s | _ => msg.ID),
            GroupID := some props.GroupID,
            GroupSequence := some props.GroupSequence,
            CorrelationID :=
              (match props.CorrelationID with | some (.str s) => s | _ => msg.CorrelationID),
            ContentType := props.ContentType,
            Label := props.Subject,
            To := props.To,
            ReplyTo := props.ReplyTo,
            ReplyToGroupID := props.ReplyToGroupID,
            DeliveryCount := (hdr.DeliveryCount + 1) % 4294967296,
            TTL := some hdr.TTL } w

/-- messageFromAMQPMessage: inbound entry point; indexes the first data
section without a bounds check, so a wire message with no data section
crashes with an index-out-of-range panic. -/
def messageFromAMQPMessage (msg : AMQPMessage) : GoResult Message :=
  match msg.Data with
  | [] => .panic "runtime error: index out of range"
  | d :: _ => newMessage d (some msg)

/-- A successful delivery-tag step only ever changes the lock token. -/
theorem newMessageTag_ok (msg : Message) (w : AMQPMessage) (m' : Message)
    (h : newMessageTag msg w = .ok m') :
    ∃ lt, m' = { msg with LockToken := lt } := by
  unfold newMessageTag at h
  cases hdt : w.DeliveryTag with
  | none =>
    rw [hdt] at h
    simp at h
    exact ⟨msg.LockToken, by rw [← h]⟩
  | some dt =>
    rw [hdt] at h
    by_cases hlen : 0 < dt.length
    · simp only [if_pos hlen] at h
      cases hlk : lockTokenFromMessageTag w with
      | error e => rw [hlk] at h; simp at h
      | ok tok =>
        rw [hlk] at h
        simp at h
        exact ⟨some tok, h.symm⟩
    · simp only [if_neg hlen] at h
      simp at h
      exact ⟨msg.LockToken, by rw [← h]⟩

/-- The delivery-tag step never panics. -/
theorem newMessageTag_no_panic (msg : Message) (w : AMQPMessage) (s : String) :
    newMessageTag msg w ≠ .panic s := by
  unfold newMessageTag
  cases hdt : w.DeliveryTag with
  | none => simp
  | some dt =>
    by_cases hlen : 0 < dt.length
    · simp only [if_pos hlen]
      cases hlk : lockTokenFromMessageTag w <;> simp
    · simp only [if_neg hlen]; simp

/-- A successful pass through the application-properties, annotations
and delivery-tag steps only ever changes user properties, system
properties and lock token. -/
theorem newMessageRest_ok (msg : Message) (w : AMQPMessage) (m' : Message)
    (h : newMessageRest msg w = .ok m') :
    ∃ up sp lt,
      m' = { msg with UserProperties := up, SystemProperties := sp, LockToken := lt } := by
  cases hap : w.ApplicationProperties with
  | none =>
    cases hann : w.Annotations with
    | none =>
      simp only [newMessageRest, hap, hann] at h
      obtain ⟨lt, rfl⟩ := newMessageTag_ok _ _ _ h
      exact ⟨msg.UserProperties, msg.SystemProperties, lt, rfl⟩
    | some ann =>
      simp only [newMessageRest, hap, hann] at h
      cases hdec : decodeSystemProperties ann with
      | error e => rw [hdec] at h; simp at h
      | ok sp =>
        rw [hdec] at h
        obtain ⟨lt, rfl⟩ := newMessageTag_ok _ _ _ h
        exact ⟨msg.UserProperties, some sp, lt, rfl⟩
  | some ap =>
    cases hann : w.Annotations with
    | none =>
      simp only [newMessageRest, hap, hann] at h
      obtain ⟨lt, rfl⟩ := newMessageTag_ok _ _ _ h
      exact ⟨some ap, msg.SystemProperties, lt, rfl⟩
    | some ann =>
      simp only [newMessageRest, hap, hann] at h
      cases hdec : decodeSystemProperties ann with
      | error e => rw [hdec] at h; simp at h
      | ok sp =>
        rw [hdec] at h
        obtain ⟨lt, rfl⟩ := newMessageTag_ok _ _ _ h
        exact ⟨some ap, some sp, lt, rfl⟩

/-- The application-properties, annotations and delivery-tag steps never
panic; they at worst return decode or codec errors. -/
theorem newMessageRest_no_panic (msg : Message) (w : AMQPMessage) (s : String) :
    newMessageRest msg w ≠ .panic s := by
  cases hap : w.ApplicationProperties with
  | none =>
    cases hann : w.Annotations with
    | none =>
      simp only [newMessageRest, hap, hann]
      exact newMessageTag_no_panic _ _ _
    | some ann =>
      simp only [newMessageRest, hap, hann]
      cases hdec : decodeSystemProperties ann with
      | error e => simp
      | ok sp => exact newMessageTag_no_panic _ _ _
  | some ap =>
    cases hann : w.Annotations with
    | none =>
      simp only [newMessageRest, hap, hann]
      exact newMessageTag_no_panic _ _ _
    | some ann =>
      simp only [newMessageRest, hap, hann]
      cases hdec : decodeSystemProperties ann with
      | error e => simp
      | ok sp => exact newMessageTag_no_panic _ _ _

/-- A successful inbound translation carries the payload it was given. -/
theorem newMessage_ok_data (data : List Nat) (amqpMsg : Option AMQPMessage) (m' : Message)
    (h : newMessage data amqpMsg = .ok m') : m'.Data = data := by
  cases amqpMsg with
  | none =>
    simp only [newMessage] at h
    simp at h
    rw [← h]
  | some w =>
    cases hp : w.Properties with
    | none =>
      simp only [newMessage, hp] at h
      obtain ⟨up, sp, lt, rfl⟩ := newMessageRest_ok _ _ _ h
      rfl
    | some props =>
      cases hh : w.Header with
      | none => simp only [newMessage, hp, hh] at h; simp at h
      | some hdr =>
        simp only [newMessage, hp, hh] at h
        obtain ⟨up, sp, lt, rfl⟩ := newMessageRest_ok _ _ _ h
        rfl

/-- Wire message with no data section at all. -/
def emptyDataWire : AMQPMessage :=
  { Data := [], Properties := none, Header := none, ApplicationProperties := none,
    Annotations := none, DeliveryAnnotations := none, DeliveryTag := none }

/-- Counterexample to claim C4 as stated: on a wire message with no data
section the inbound translation does not fail with an error value; it
crashes with an index-out-of-range panic. -/
theorem messageFromAMQPMessage_empty_data_panics :
    messageFromAMQPMessage emptyDataWire = .panic "runtime error: index out of range" ∧
    (messageFromAMQPMessage emptyDataWire).isErr = false := by
  decide

/-- Claim C4 (amended): a wire message with no data section makes
inbound translation panic with an index-out-of-range runtime error
rather than return an error value; with at least one data section the
payload of a successfully translated Message is the first data
section. -/
theorem messageFromAMQPMessage_payload (msg : AMQPMessage) :
    (msg.Data = [] →
      messageFromAMQPMessage msg = .panic "runtime error: index out of range") ∧
    (∀ d rest m', msg.Data = d :: rest → messageFromAMQPMessage msg = .ok m' →
      m'.Data = d) := by
  constructor
  · intro hdata
    simp [messageFromAMQPMessage, hdata]
  · intro d rest m' hdata hok
    simp only [messageFromAMQPMessage, hdata] at hok
    exact newMessage_ok_data _ _ _ hok

/-- Wire message holding exactly one data section. -/
def oneDataWire : AMQPMessage := { emptyDataWire with Data := [[9]] }

/-- The Message produced from the one-section wire message. -/
def inboundOneData : Message :=
  { emptyMessage with Data := [9], message := some oneDataWire }

/-- Witness for claim C4 (amended): the empty wire message panics, and
the payload of the translated one-section wire message is that
section. -/
theorem messageFromAMQPMessage_payload_witness :
    messageFromAMQPMessage emptyDataWire = .panic "runtime error: index out of range" ∧
    inboundOneData.Data = [9] :=
  ⟨(messageFromAMQPMessage_payload emptyDataWire).1 rfl,
   (messageFromAMQPMessage_payload oneDataWire).2 [9] [] inboundOneData rfl (by decide)⟩

/-- Claim C5: with a properties block and a header block present, a
successfully translated Message carries the wire delivery count plus one
(in uint32 arithmetic, so literally plus one below the wrap point). -/
theorem newMessage_deliveryCount (data : List Nat) (w : AMQPMessage)
    (props : MessageProperties) (hdr : MessageHeader) (m : Message)
    (hp : w.Properties = some props) (hh : w.Header = some hdr)
    (hok : newMessage data (some w) = .ok m) :
    m.DeliveryCount = (hdr.DeliveryCount + 1) % 4294967296 ∧
    (hdr.DeliveryCount < 4294967295 → m.DeliveryCount = hdr.DeliveryCount + 1) := by
  simp only [newMessage, hp, hh] at hok
  obtain ⟨up, sp, lt, rfl⟩ := newMessageRest_ok _ _ _ hok
  refine ⟨rfl, fun hlt => ?_⟩
  have hb : hdr.DeliveryCount + 1 < 4294967296 := by omega
  show (hdr.DeliveryCount + 1) % 4294967296 = hdr.DeliveryCount + 1
  exact Nat.mod_eq_of_lt hb

/-- An all-zero wire properties block. -/
def emptyWireProperties : MessageProperties :=
  { MessageID := none, GroupID := "", GroupSequence := 0, CorrelationID := none,
    ContentType := "", Subject := "", To := "", ReplyTo := "", ReplyToGroupID := "" }

/-- Wire message with properties, a header carrying the given delivery
count, and a single data section. -/
def wireWithCount (n : Nat) : AMQPMessage :=
  { Data := [[7]], Properties := some emptyWireProperties,
    Header := some { DeliveryCount := n, TTL := 0 },
    ApplicationProperties := none, Annotations := none,
    DeliveryAnnotations := none, DeliveryTag := none }

/-- Message translated from the wire message with delivery count 0. -/
def inboundCount0 : Message :=
  { emptyMessage with
    Data := [7], message := some (wireWithCount 0), GroupID := some "",
    GroupSequence := some 0, DeliveryCount := 1, TTL := some 0 }

/-- Message translated from the wire message with delivery count 5. -/
def inboundCount5 : Message :=
  { emptyMessage with
    Data := [7], message := some (wireWithCount 5), GroupID := some "",
    GroupSequence := some 0, DeliveryCount := 6, TTL := some 0 }

/-- Witness for claim C5: wire delivery count 0 maps to 1 and wire
delivery count 5 maps to 6. -/
theorem newMessage_deliveryCount_witness :
    inboundCount0.DeliveryCount = 1 ∧ inboundCount5.DeliveryCount = 6 :=
  ⟨(newMessage_deliveryCount [7] (wireWithCount 0) emptyWireProperties
      { DeliveryCount := 0, TTL := 0 } inboundCount0 rfl rfl (by decide)).2 (by decide),
   (newMessage_deliveryCount [7] (wireWithCount 5) emptyWireProperties
      { DeliveryCount := 5, TTL := 0 } inboundCount5 rfl rfl (by decide)).2 (by decide)⟩

/-- Claim C10: newMessage dereferences the header whenever the
properties block is present: properties without header is a panic;
properties with header never panics; without properties it never panics
and a successful result keeps delivery count 0 and no TTL. -/
theorem newMessage_header_precondition :
    (∀ data (w : AMQPMessage) props, w.Properties = some props → w.Header = none →
      newMessage data (some w) =
        .panic "runtime error: invalid memory address or nil pointer dereference") ∧
    (∀ data (w : AMQPMessage) props hdr s, w.Properties = some props →
      w.Header = some hdr → newMessage data (some w) ≠ .panic s) ∧
    (∀ data (w : AMQPMessage) s, w.Properties = none →
      newMessage data (some w) ≠ .panic s) ∧
    (∀ data (w : AMQPMessage) m, w.Properties = none →
      newMessage data (some w) = .ok m → m.DeliveryCount = 0 ∧ m.TTL = none) := by
  refine ⟨?_, ?_, ?_, ?_⟩
  · intro data w props hp hh
    simp [newMessage, hp, hh]
  · intro data w props hdr s hp hh
    simp only [newMessage, hp, hh]
    exact newMessageRest_no_panic _ _ _
  · intro data w s hp
    simp only [newMessage, hp]
    exact newMessageRest_no_panic _ _ _
  · intro data w m hp hok
    simp only [newMessage, hp] at hok
    obtain ⟨up, sp, lt, rfl⟩ := newMessageRest_ok _ _ _ hok
    exact ⟨rfl, rfl⟩

/-- Wire message with a properties block but no header block. -/
def noHeaderWire : AMQPMessage :=
  { emptyDataWire with Data := [[1]], Properties := some emptyWireProperties }

/-- Wire message with neither properties nor header. -/
def noPropsWire : AMQPMessage := { emptyDataWire with Data := [[1]] }

/-- Message translated from the propertiesless wire message. -/
def inboundNoProps : Message :=
  { emptyMessage with Data := [1], message := some noPropsWire }

/-- Witness for claim C10: properties without header panics on a
concrete wire message; with a header or without properties concrete
translations do not panic, and the propertiesless result keeps delivery
count 0 and no TTL. -/
theorem newMessage_header_precondition_witness :
    newMessage [1] (some noHeaderWire) =
      .panic "runtime error: invalid memory address or nil pointer dereference" ∧
    newMessage [7] (some (wireWithCount 0)) ≠ .panic "boom" ∧
    newMessage [1] (some noPropsWire) ≠ .panic "boom" ∧
    (inboundNoProps.DeliveryCount = 0 ∧ inboundNoProps.TTL = none) :=
  ⟨newMessage_header_precondition.1 [1] noHeaderWire emptyWireProperties rfl rfl,
   newMessage_header_precondition.2.1 [7] (wireWithCount 0) emptyWireProperties
      { DeliveryCount := 0, TTL := 0 } "boom" rfl rfl,
   newMessage_header_precondition.2.2.1 [1] noPropsWire "boom" rfl,
   newMessage_header_precondition.2.2.2 [1] noPropsWire inboundNoProps rfl (by decide)⟩

/-- A settlement operation performed against the transport for one wire
message: the three primitives accept, modify and reject. -/
inductive Settlement where
  | accept
  | modify (deliveryFailed : Bool) (undeliverableHere : Bool)
      (info : Option (List (String × Option AMQPValue)))
  | reject (condition : String) (description : String)
      (info : Option (List (String × Option AMQPValue)))
deriving DecidableEq, Repr

/-- The well-known AMQP error conditions. -/
abbrev MessageErrorCondition := String

def ErrorInternalError : MessageErrorCondition := "amqp:internal-error"

def ErrorNotFound : MessageErrorCondition := "amqp:not-found"

def ErrorUnauthorizedAccess : MessageErrorCondition := "amqp:unauthorized-access"

def ErrorDecodeError : MessageErrorCondition := "amqp:decode-error"

def ErrorResourceLimitExceeded : MessageErrorCondition := "amqp:resource-limit-exceeded"

def ErrorNotAllowed : MessageErrorCondition := "amqp:not-allowed"

def ErrorInvalidField : MessageErrorCondition := "amqp:invalid-field"

def ErrorNotImplemented : MessageErrorCondition := "amqp:not-implemented"

def ErrorResourceLocked : MessageErrorCondition := "amqp:resource-locked"

def ErrorPreconditionFailed : MessageErrorCondition := "amqp:precondition-failed"

def ErrorResourceDeleted : MessageErrorCondition := "amqp:resource-deleted"

def ErrorIllegalState : MessageErrorCondition := "amqp:illegal-state"

/-- Invoking the disposition action built by Complete: settles the
captured wire message as accepted; a Message with no wire message
crashes on the nil method receiver. -/
def Message.Complete (m : Message) : GoResult (AMQPMessage × Settlement) :=
  match m.message with
  | none => .panic "runtime error: invalid memory address or nil pointer dereference"
  | some w => .ok (w, .accept)

/-- Invoking the disposition action built by Abandon: settles the
captured wire message as modified with both flags false and no info. -/
def Message.Abandon (m : Message) : GoResult (AMQPMessage × Settlement) :=
  match m.message with
  | none => .panic "runtime error: invalid memory address or nil pointer dereference"
  | some w => .ok (w, .modify false false none)

/-- Invoking the disposition action built by DeadLetter: settles the
captured wire message as rejected with the internal-error condition and
the error text as description. -/
def Message.DeadLetter (m : Message) (err : String) : GoResult (AMQPMessage × Settlement) :=
  match m.message with
  | none => .panic "runtime error: invalid memory address or nil pointer dereference"
  | some w => .ok (w, .reject ErrorInternalError err none)

/-- Invoking the disposition action built by DeadLetterWithInfo: the
optional string-to-string additional data is first copied into a
dynamically typed info map, and the captured wire message is settled as
rejected with the caller-supplied condition, the error text as
description and that info map. -/
def Message.DeadLetterWithInfo (m : Message) (err : String)
    (condition : MessageErrorCondition)
    (additionalData : Option (List (String × String))) :
    GoResult (AMQPMessage × Settlement) :=
  let info : Option (List (String × Option AMQPValue)) :=
    match additionalData with
    | none => none
    | some ad => some (ad.map (fun kv => (kv.1, some (.str kv.2))))
  match m.message with
  | none => .panic "runtime error: invalid memory address or nil pointer dereference"
  | some w => .ok (w, .reject condition err info)

/-- Claim C8: invoking the DeadLetterWithInfo disposition action settles
the captured wire message with a rejection carrying exactly the supplied
condition, the error text as description, and the supplied key/value
pairs (each value string-typed) as info; a nil info map stays nil. -/
theorem deadLetterWithInfo_spec (m : Message) (w : AMQPMessage) (err : String)
    (condition : MessageErrorCondition) (info : List (String × String))
    (hw : m.message = some w) :
    m.DeadLetterWithInfo err condition (some info) =
      .ok (w, .reject condition err
        (some (info.map (fun kv => (kv.1, some (.str kv.2)))))) ∧
    m.DeadLetterWithInfo err condition none = .ok (w, .reject condition err none) := by
  constructor <;> simp [Message.DeadLetterWithInfo, hw]

/-- A received Message wrapping a concrete wire message, used to invoke
disposition actions. -/
def receivedMessage : Message :=
  { emptyMessage with Data := [7], message := some (wireWithCount 0) }

/-- Witness for claim C8: dead-lettering with the precondition-failed
condition and the reason-expired info map produces a rejection carrying
exactly that condition string and info mapping. -/
theorem deadLetterWithInfo_spec_witness :
    receivedMessage.DeadLetterWithInfo "ttl expired" ErrorPreconditionFailed
        (some [("reason", "expired")]) =
      .ok (wireWithCount 0,
        .reject "amqp:precondition-failed" "ttl expired"
          (some [("reason", some (.str "expired"))])) :=
  (deadLetterWithInfo_spec receivedMessage (wireWithCount 0) "ttl expired"
      ErrorPreconditionFailed [("reason", "expired")] rfl).1

/-- The iteration body of ForeachKey: walks the user-property pairs in
order, performs an unchecked string type assertion on each value (a
non-string value is a runtime panic), invokes the handler, and returns
the first handler error. -/
def foreachPairs (handler : String → String → Option String) :
    List (String × Option AMQPValue) → GoResult (Option String)
  | [] => .ok none
  | (key, value) :: rest =>
    match value with
    | some (.str s) =>
      match handler key s with
      | some e => .ok (some e)
      | none => foreachPairs handler rest
    | _ => .panic "interface conversion: interface is not a string"

/-- ForeachKey: iterates the user-properties map with the handler; a nil
map iterates zero times. The handler returns an error to stop early
(modelled as an optional error string). -/
def Message.ForeachKey (m : Message) (handler : String → String → Option String) :
    GoResult (Option String) :=
  foreachPairs handler (m.UserProperties.getD [])

/-- Checks that every user-property value is string-typed and extracts
the string pairs. -/
def stringValues? : List (String × Option AMQPValue) → Option (List (String × String))
  | [] => some []
  | (k, some (.str s)) :: rest => (stringValues? rest).map (fun r => (k, s) :: r)
  | _ => none

/-- The first handler error over a list of string pairs, exactly as the
specification words the iteration contract. -/
def firstHandlerError (handler : String → String → Option String) :
    List (String × String) → Option String
  | [] => none
  | (k, v) :: rest =>
    match handler k v with
    | some e => some e
    | none => firstHandlerError handler rest

/-- Message whose user properties hold one non-string value. -/
def nonStringPropsMessage : Message :=
  { emptyMessage with UserProperties := some [("count", some (.i64 1))] }

/-- When every pair before position i is string-valued and accepted by
the handler, and the value at position i is not string-typed, the
iteration panics at the failed type assertion. -/
theorem foreachPairs_panic (handler : String → String → Option String) :
    ∀ (pre : List (String × Option AMQPValue)) (k : String) (v : Option AMQPValue)
      (rest : List (String × Option AMQPValue)),
      (∀ p ∈ pre, ∃ s, p.2 = some (AMQPValue.str s) ∧ handler p.1 s = none) →
      (∀ s, v ≠ some (AMQPValue.str s)) →
      foreachPairs handler (pre ++ (k, v) :: rest) =
        .panic "interface conversion: interface is not a string"
  | [], _, none, _, _, _ => rfl
  | [], _, some (.str s), _, _, hv => absurd rfl (hv s)
  | [], _, some (.time _), _, _, _ => rfl
  | [], _, some (.i64 _), _, _, _ => rfl
  | [], _, some (.i16 _), _, _, _ => rfl
  | [], _, some (.uuid _), _, _, _ => rfl
  | (pk, pv) :: pre', k, v, rest, hpre, hv => by
    obtain ⟨s, hs, hh⟩ := hpre (pk, pv) (by simp)
    simp only at hs
    subst hs
    simp only [List.cons_append, foreachPairs]
    simp only at hh
    rw [hh]
    exact foreachPairs_panic handler pre' k v rest (fun q hq => hpre q (by simp [hq])) hv

/-- Counterexample to claim C9 as stated: with a non-string user
property value, ForeachKey does not return an error to its caller; it
crashes with a failed type assertion. -/
theorem foreachKey_nonstring_panics :
    nonStringPropsMessage.ForeachKey (fun _ _ => none) =
      .panic "interface conversion: interface is not a string" ∧
    (nonStringPropsMessage.ForeachKey (fun _ _ => none)).isErr = false := by
  constructor <;> rfl

/-- Claim C9 (amended): when every user-property value is string-typed,
ForeachKey invokes the handler on each pair in order and returns the
first handler error (or success); when iteration reaches a value that is
not string-typed, after string-valued pairs the handler accepted,
ForeachKey panics on the failed type assertion instead of returning an
error. -/
theorem foreachKey_spec (m : Message) (handler : String → String → Option String) :
    (m.UserProperties = none → m.ForeachKey handler = .ok none) ∧
    (∀ pairs spairs, m.UserProperties = some pairs → stringValues? pairs = some spairs →
      m.ForeachKey handler = .ok (firstHandlerError handler spairs)) ∧
    (∀ pre k v rest, m.UserProperties = some (pre ++ (k, v) :: rest) →
      (∀ p ∈ pre, ∃ s, p.2 = some (.str s) ∧ handler p.1 s = none) →
      (∀ s, v ≠ some (.str s)) →
      m.ForeachKey handler = .panic "interface conversion: interface is not a string") := by
  refine ⟨fun h => by simp [Message.ForeachKey, h, foreachPairs], ?_, ?_⟩
  · intro pairs spairs hup hsv
    simp only [Message.ForeachKey, hup, Option.getD]
    clear hup
    induction pairs generalizing spairs with
    | nil =>
      simp [stringValues?] at hsv
      subst hsv
      rfl
    | cons p rest ih =>
      obtain ⟨k, v⟩ := p
      match v, hsv with
      | some (.str s), hsv =>
        simp only [stringValues?] at hsv
        cases hrest : stringValues? rest with
        | none => rw [hrest] at hsv; simp at hsv
        | some srest =>
          rw [hrest] at hsv
          simp at hsv
          subst hsv
          simp only [foreachPairs, firstHandlerError]
          cases handler k s with
          | some e => rfl
          | none => exact ih srest hrest
  · intro pre k v rest hup hpre hv
    have h := foreachPairs_panic handler pre k v rest hpre hv
    simpa [Message.ForeachKey, hup] using h

/-- Outbound translation of a Message that does not wrap a wire message
always succeeds, and the resulting fresh wire message carries the
payload as its only data section, the content fields in its properties
block, a header exactly when TTL is set, application properties exactly
when user properties are non-empty, the projected system properties as
annotations, and no delivery tag. -/
theorem toMsg_fresh (m : Message) (hwire : m.message = none) :
    ∃ w, m.toMsg = .ok w ∧
      w.Data = [m.Data] ∧
      w.Properties = some
        { MessageID := some (.str m.ID), GroupID := m.GroupID.getD "",
          GroupSequence := m.GroupSequence.getD 0,
          CorrelationID := some (.str m.CorrelationID), ContentType := m.ContentType,
          Subject := m.Label, To := m.To, ReplyTo := m.ReplyTo,
          ReplyToGroupID := m.ReplyToGroupID } ∧
      w.Header = (match m.TTL with
        | some ttl => some { DeliveryCount := 0, TTL := ttl }
        | none => none) ∧
      w.ApplicationProperties = (match m.UserProperties with
        | some up => if 0 < up.length then some up else none
        | none => none) ∧
      w.Annotations = m.SystemProperties.map spEncoded ∧
      w.DeliveryTag = none := by
  cases hgid : m.GroupID <;> cases hgs : m.GroupSequence <;> cases httl : m.TTL <;>
    cases hlock : m.LockToken <;> cases hsys : m.SystemProperties <;>
      rcases hup : m.UserProperties with _ | (_ | ⟨p, ps⟩) <;>
        simp [Message.toMsg, toMsgTail, amqpNewMessage, annotationsFromMap, mapInsert,
          hwire, hgid, hgs, httl, hlock, hsys, hup, encodeStructureToMap_systemProperties]

/-- The Message newMessage has built right after the properties block,
spelled out for a wire message with the given properties and header. -/
def inboundBase (data : List Nat) (w : AMQPMessage)
    (props : MessageProperties) (hdr : MessageHeader) : Message :=
  { emptyMessage with
    Data := data, message := some w,
    ID := (match props.MessageID with | some (.str s) => s | _ => ""),
    GroupID := some props.GroupID, GroupSequence := some props.GroupSequence,
    CorrelationID := (match props.CorrelationID with | some (.str s) => s | _ => ""),
    ContentType := props.ContentType, Label := props.Subject, To := props.To,
    ReplyTo := props.ReplyTo, ReplyToGroupID := props.ReplyToGroupID,
    DeliveryCount := (hdr.DeliveryCount + 1) % 4294967296, TTL := some hdr.TTL }

/-- With properties and header present, newMessage is the remaining
steps applied to the base Message. -/
theorem newMessage_unfold_props (data : List Nat) (w : AMQPMessage)
    (props : MessageProperties) (hdr : MessageHeader)
    (hp : w.Properties = some props) (hh : w.Header = some hdr) :
    newMessage data (some w) = newMessageRest (inboundBase data w props hdr) w := by
  simp only [newMessage, hp, hh, inboundBase]
  rfl

/-- With no delivery tag and decodable annotations, the remaining steps
succeed and only install user properties (from application properties)
and decoded system properties. -/
theorem newMessageRest_form (msg : Message) (w : AMQPMessage)
    (hdt : w.DeliveryTag = none)
    (hanndec : ∀ ann, w.Annotations = some ann →
      ∃ sp, decodeSystemProperties ann = .ok sp) :
    ∃ sp,
      newMessageRest msg w = .ok
        { msg with
          UserProperties := (match w.ApplicationProperties with
            | some ap => some ap
            | none => msg.UserProperties),
          SystemProperties := sp } := by
  cases hap : w.ApplicationProperties with
  | none =>
    cases hann : w.Annotations with
    | none =>
      refine ⟨msg.SystemProperties, ?_⟩
      simp only [newMessageRest, newMessageTag, hap, hann, hdt]
    | some ann =>
      obtain ⟨sp, hdec⟩ := hanndec ann hann
      refine ⟨some sp, ?_⟩
      simp only [newMessageRest, newMessageTag, hap, hann, hdec, hdt]
  | some ap =>
    cases hann : w.Annotations with
    | none =>
      refine ⟨msg.SystemProperties, ?_⟩
      simp only [newMessageRest, newMessageTag, hap, hann, hdt]
    | some ann =>
      obtain ⟨sp, hdec⟩ := hanndec ann hann
      refine ⟨some sp, ?_⟩
      simp only [newMessageRest, newMessageTag, hap, hann, hdec, hdt]

/-- Inbound translation of a wire message with properties and header
blocks, decodable annotations and no delivery tag succeeds, recovering
the content fields from the properties block and the user properties
from the application properties. -/
theorem newMessage_content (data : List Nat) (w : AMQPMessage)
    (props : MessageProperties) (hdr : MessageHeader)
    (hp : w.Properties = some props) (hh : w.Header = some hdr)
    (hdt : w.DeliveryTag = none)
    (hanndec : ∀ ann, w.Annotations = some ann →
      ∃ sp, decodeSystemProperties ann = .ok sp) :
    ∃ m', newMessage data (some w) = .ok m' ∧
      m'.ContentType = props.ContentType ∧
      m'.CorrelationID =
        (match props.CorrelationID with | some (.str s) => s | _ => "") ∧
      m'.Label = props.Subject ∧ m'.To = props.To ∧ m'.ReplyTo = props.ReplyTo ∧
      m'.ReplyToGroupID = props.ReplyToGroupID ∧
      m'.UserProperties = w.ApplicationProperties := by
  obtain ⟨sp, hrest⟩ := newMessageRest_form (inboundBase data w props hdr) w hdt hanndec
  refine ⟨_, by rw [newMessage_unfold_props data w props hdr hp hh]; exact hrest,
    rfl, rfl, rfl, rfl, rfl, rfl, ?_⟩
  cases w.ApplicationProperties <;> rfl

/-- Message built by an application: content fields set, no TTL, no
wrapped wire message. -/
def cexRoundTripMessage : Message :=
  { emptyMessage with ContentType := "text/plain", Data := [1, 2, 3] }

/-- The wire message its outbound translation produces: a properties
block but no header block. -/
def cexRoundTripWire : AMQPMessage :=
  { Data := [[1, 2, 3]],
    Properties := some
      { MessageID := some (.str ""), GroupID := "", GroupSequence := 0,
        CorrelationID := some (.str ""), ContentType := "text/plain", Subject := "",
        To := "", ReplyTo := "", ReplyToGroupID := "" },
    Header := none, ApplicationProperties := none, Annotations := none,
    DeliveryAnnotations := none, DeliveryTag := none }

/-- Counterexample to claim C3 as stated: a Message with only
wire-representable fields set but no TTL translates outbound to a wire
message with properties and no header, and translating that back
inbound panics on the nil header dereference instead of reproducing the
content fields. -/
theorem roundTrip_nilTTL_panics :
    cexRoundTripMessage.toMsg = .ok cexRoundTripWire ∧
    messageFromAMQPMessage cexRoundTripWire =
      .panic "runtime error: invalid memory address or nil pointer dereference" := by
  constructor <;> rfl

/-- Claim C3 (amended): for every Message that does not wrap a wire
message, whose TTL is set, and whose user-properties map is not set
empty, translating outbound and back inbound succeeds and reproduces
content type, correlation id, label, to, reply-to, reply-to-group-id
and user properties exactly. -/
theorem roundTrip_preserves_content (m : Message) (t : Nat)
    (hwire : m.message = none) (httl : m.TTL = some t)
    (hup : m.UserProperties ≠ some []) :
    ∃ w m', m.toMsg = .ok w ∧ messageFromAMQPMessage w = .ok m' ∧
      m'.ContentType = m.ContentType ∧ m'.CorrelationID = m.CorrelationID ∧
      m'.Label = m.Label ∧ m'.To = m.To ∧ m'.ReplyTo = m.ReplyTo ∧
      m'.ReplyToGroupID = m.ReplyToGroupID ∧
      m'.UserProperties = m.UserProperties := by
  obtain ⟨w, hto, hdata, hprops, hheader, happ, hannw, hdt⟩ := toMsg_fresh m hwire
  rw [httl] at hheader
  have hanndec : ∀ ann, w.Annotations = some ann →
      ∃ sp, decodeSystemProperties ann = .ok sp := by
    intro ann hann
    rw [hannw] at hann
    cases hsys : m.SystemProperties with
    | none => rw [hsys] at hann; simp at hann
    | some sp =>
      rw [hsys] at hann
      simp at hann
      exact ⟨sp, by rw [← hann]; exact decodeSystemProperties_spEncoded sp⟩
  obtain ⟨m', hinb, hct, hcid, hlbl, hto2, hrt, hrtg, hupEq⟩ :=
    newMessage_content m.Data w _ _ hprops hheader hdt hanndec
  have hfrom : messageFromAMQPMessage w = newMessage m.Data (some w) := by
    simp [messageFromAMQPMessage, hdata]
  refine ⟨w, m', hto, by rw [hfrom]; exact hinb, hct, hcid, hlbl, hto2, hrt, hrtg, ?_⟩
  rw [hupEq, happ]
  rcases hupv : m.UserProperties with _ | (_ | ⟨p, ps⟩)
  · rfl
  · exact absurd hupv hup
  · simp

/-- Executable check that outbound-then-inbound translation succeeds
and reproduces the content fields of a Message. -/
def roundTripContentOk (m : Message) : Bool :=
  match m.toMsg with
  | .error _ => false
  | .ok w =>
    match messageFromAMQPMessage w with
    | .ok m' =>
      decide (m'.ContentType = m.ContentType ∧ m'.CorrelationID = m.CorrelationID ∧
        m'.Label = m.Label ∧ m'.To = m.To ∧ m'.ReplyTo = m.ReplyTo ∧
        m'.ReplyToGroupID = m.ReplyToGroupID ∧ m'.UserProperties = m.UserProperties)
    | _ => false

/-- An application-built Message with every content field, system
properties and user properties populated, and a TTL. -/
def sampleRoundTripMessage : Message :=
  { emptyMessage with
    ContentType := "application/json", CorrelationID := "corr-1", Data := [104, 105],
    GroupID := some "g1", GroupSequence := some 2, ID := "id-1", Label := "label-1",
    ReplyTo := "reply-1", ReplyToGroupID := "rg-1", To := "to-1", TTL := some 60,
    SystemProperties := some
      { LockedUntil := none, SequenceNumber := some 10, PartitionID := none,
        PartitionKey := some "pk", EnqueuedTime := none, DeadLetterSource := none,
        ScheduledEnqueueTime := some 1000, EnqueuedSequenceNumber := none,
        ViaPartitionKey := none },
    UserProperties := some [("k1", some (.str "v1")), ("k2", some (.i64 3))] }

/-- Witness for claim C3 (amended): the fully populated sample message
round-trips with its content fields intact. -/
theorem roundTrip_preserves_content_witness :
    roundTripContentOk sampleRoundTripMessage = true := by
  obtain ⟨w, m', hto, hin, h1, h2, h3, h4, h5, h6, h7⟩ :=
    roundTrip_preserves_content sampleRoundTripMessage 60 rfl rfl (by decide)
  simp only [roundTripContentOk, hto, hin]
  simp [h1, h2, h3, h4, h5, h6, h7]

/-- Message whose user properties are all string-valued. -/
def stringPropsMessage : Message :=
  { emptyMessage with
    UserProperties := some [("a", some (.str "1")), ("b", some (.str "2"))] }

/-- Witness for claim C9 (amended): on all-string properties ForeachKey
returns the first handler error, and on mixed properties whose first
value is accepted it panics at the non-string value. -/
theorem foreachKey_spec_witness :
    stringPropsMessage.ForeachKey (fun k _ => if k = "b" then some "stop" else none) =
      .ok (some "stop") ∧
    nonStringPropsMessage.ForeachKey (fun _ _ => some "early") ≠
      .err "interface conversion: interface is not a string" :=
  ⟨(foreachKey_spec stringPropsMessage
      (fun k _ => if k = "b" then some "stop" else none)).2.1
      [("a", some (.str "1")), ("b", some (.str "2"))] [("a", "1"), ("b", "2")]
      rfl (by decide),
   fun hcontra => by
     have h := (foreachKey_spec nonStringPropsMessage (fun _ _ => some "early")).2.2
       [] "count" (some (.i64 1)) [] rfl (by simp) (by simp)
     rw [h] at hcontra
     exact absurd hcontra (by decide)⟩

end ServiceBus
